import Mathlib

/-!
# Light switch binding handler

A shallow embedding of `samples/matter/light_switch/src/binding_handler.cpp`.

The functions of the source have no return value: everything they do is
observable only through the calls they make on the external Matter stack
(the two command transports) and through the log.  Each function is therefore
embedded as a pure function that returns an `Outcome`: the ordered trace of
the external calls and log lines it issued, and whether it returned or hit a
fatal check of the stack (`Optional::Value()` on an empty optional, a member
call through the null pointer that `FindFabricWithIndex` returns when no fabric
matches).

The completion callbacks `onSuccess` / `onFailure` are only handed to the
transport; they run later, outside these functions, and are not part of the
trace.
-/

namespace BindingHandler

/-! ## Data model -/

/-- Immediate result code of a transport call; `0` is `CHIP_NO_ERROR`. -/
abbrev CHIP_ERROR := Nat

def CHIP_NO_ERROR : CHIP_ERROR := 0

/-- The `type` tag of a binding table row.  The four named enumerators are the
ones the source switches on; `OUT_OF_RANGE` stands for any other raw value of
the C enumeration, which is what the `default:` branch of `PrintBindingTable`
receives. -/
inductive EmberBindingType where
  | EMBER_UNUSED_BINDING
  | EMBER_UNICAST_BINDING
  | EMBER_MANY_TO_ONE_BINDING
  | EMBER_MULTICAST_BINDING
  | OUT_OF_RANGE
  deriving DecidableEq, Repr

open EmberBindingType

/-- One row of the binding table, with the members the source reads.
`fabricIndex` is an 8-bit, `local_` / `remote` / `groupId` are 16-bit, `clusterId`
is an optional 32-bit and `nodeId` a 64-bit unsigned integer; they are carried
as naturals and the casts of the source are applied explicitly where it casts.
(`local_` is the member `local`, a reserved word here.)  `nodeId` and `groupId`
are carried as two independent members; nothing below relates them. -/
structure EmberBindingTableEntry where
  type : EmberBindingType
  fabricIndex : Nat
  local_ : Nat
  clusterId : Option Nat
  remote : Nat
  nodeId : Nat
  groupId : Nat
  deriving DecidableEq, Repr

/-- The payload behind the `void *context` of the change handler. -/
structure BindingData where
  EndpointId : Nat
  CommandId : Nat
  ClusterId : Nat
  Value : Nat
  IsGroup : Bool
  deriving DecidableEq, Repr

/-- The members of a `DeviceProxy` the source touches: its exchange manager and
its optional secure session. -/
structure DeviceProxy where
  exchangeManager : Nat
  secureSession : Option Nat
  deriving DecidableEq, Repr

/-- A fabric of the fabric table: the index it is found by and its node id. -/
structure FabricInfo where
  fabricIndex : Nat
  nodeId : Nat
  deriving DecidableEq, Repr

/-- The command objects the source builds (`toggleCommand`, `onCommand`,
`offCommand`, `moveToLevelCommand` with its `level` member). -/
inductive Payload where
  | Toggle
  | On
  | Off
  | MoveToLevel (level : Nat)
  deriving DecidableEq, Repr

/-- Cluster and command identifiers of the Matter data model, as used for the
`case` labels of the source. -/
def OnOff_Id : Nat := 0x0006
def LevelControl_Id : Nat := 0x0008
def OnOff_Off_Id : Nat := 0x00
def OnOff_On_Id : Nat := 0x01
def OnOff_Toggle_Id : Nat := 0x02
def LevelControl_MoveToLevel_Id : Nat := 0x00

inductive LogLevel where
  | LOG_DBG
  | LOG_INF
  | LOG_ERR
  | ChipLogError
  deriving DecidableEq, Repr

/-- The format strings of the log statements that run inside the embedded
functions, one constructor per statement text. -/
inductive LogText where
  /-- Text "Invalid binding command data - commandId is not supported". -/
  | commandIdNotSupported
  /-- Text "Invoke Unicast Command Request ERROR: %s". -/
  | invokeUnicastError
  /-- Text "Invoke Group Command Request ERROR: %s". -/
  | invokeGroupError
  /-- Text "Invalid context for Light switch handler". -/
  | invalidContext
  /-- Text "Invalid binding group command data". -/
  | invalidGroupCommandData
  /-- Text "Invalid binding unicast command data". -/
  | invalidUnicastCommandData
  /-- Text "Binding Table size: [%d]:". -/
  | tableSize
  /-- Text "[%d] UNICAST:". -/
  | unicastTag
  /-- Text "+ Fabric: %d + LocalEndpoint %d + ClusterId %d + RemoteEndpointId %d + NodeId %d". -/
  | unicastFields
  /-- Text "[%d] GROUP:". -/
  | groupTag
  /-- Text "+ Fabric: %d + LocalEndpoint %d + RemoteEndpointId %d + GroupId %d". -/
  | groupFields
  /-- Text "[%d] UNUSED". -/
  | unusedTag
  /-- Text "[%d] MANY TO ONE". -/
  | manyToOneTag
  deriving DecidableEq, Repr

/-- What a function does that is visible outside it. -/
inductive Event where
  /-- A log statement, with the values of its format arguments. -/
  | log (level : LogLevel) (text : LogText) (args : List Int)
  /-- `Controller::InvokeCommandRequest(exchangeMgr, session, remote, cmd, ..)`. -/
  | InvokeCommandRequest (exchangeMgr session remote : Nat) (cmd : Payload)
  /-- `Controller::InvokeGroupCommandRequest(&exchangeMgr, fabricIndex, groupId,
  sourceNodeId, cmd)`. -/
  | InvokeGroupCommandRequest (exchangeMgr fabricIndex groupId sourceNodeId : Nat)
      (cmd : Payload)
  deriving DecidableEq, Repr

inductive Status where
  /-- The function ran to its end. -/
  | returned
  /-- The function stopped in a fatal check of the stack. -/
  | aborted
  deriving DecidableEq, Repr

structure Outcome where
  trace : List Event
  status : Status
  deriving DecidableEq, Repr

/-- The process-wide collaborators reached through `Server::GetInstance()` and
`Controller::`: the fabric table, the server exchange manager, and the
immediate result each transport primitive gives for a request. -/
structure Env where
  fabricTable : List FabricInfo
  exchangeMgr : Nat
  unicastResult : Nat → Nat → Nat → Payload → CHIP_ERROR
  groupResult : Nat → Nat → Nat → Nat → Payload → CHIP_ERROR

/-! ## Operations -/

/-- `FabricTable::FindFabricWithIndex`: the fabric with that index, or null. -/
def FindFabricWithIndex (table : List FabricInfo) (fabricIndex : Nat) : Option FabricInfo :=
  table.find? (fun f => f.fabricIndex == fabricIndex)

/-- The `if (aDevice)` arm of a command case: the unicast request on the
session of the device.  `GetSecureSession().Value()` is fatal on a device
without a session, before anything is sent. -/
def unicastRequest (env : Env) (aDevice : DeviceProxy) (aBinding : EmberBindingTableEntry)
    (cmd : Payload) : Option (List Event × CHIP_ERROR) :=
  match aDevice.secureSession with
  | none => none
  | some session =>
    some ([Event.InvokeCommandRequest aDevice.exchangeManager session aBinding.remote cmd],
      env.unicastResult aDevice.exchangeManager session aBinding.remote cmd)

/-- The `else` arm of a command case: resolve the source node id from the fabric
of the binding and issue the group request.  `->GetNodeId()` on the null result
of a failed fabric lookup is fatal, before anything is sent. -/
def groupRequest (env : Env) (aBinding : EmberBindingTableEntry) (cmd : Payload) :
    Option (List Event × CHIP_ERROR) :=
  match FindFabricWithIndex env.fabricTable aBinding.fabricIndex with
  | none => none
  | some fabric =>
    let sourceNodeId := fabric.nodeId
    some ([Event.InvokeGroupCommandRequest env.exchangeMgr aBinding.fabricIndex
        aBinding.groupId sourceNodeId cmd],
      env.groupResult env.exchangeMgr aBinding.fabricIndex aBinding.groupId sourceNodeId cmd)

/-- The tail of both command processors: `if (CHIP_NO_ERROR != ret) LOG_ERR(..)`,
with the text each of them uses. -/
def reportResult (text : LogText) : Option (List Event × CHIP_ERROR) → Outcome
  | none => ⟨[], Status.aborted⟩
  | some (events, ret) =>
    if CHIP_NO_ERROR ≠ ret then
      ⟨events ++ [Event.log LogLevel.LOG_ERR text [(ret : Int)]], Status.returned⟩
    else
      ⟨events, Status.returned⟩

/-- `BindingHandler::OnOffProcessCommand`.  In the `Off` case the unicast arm
sends `offCommand` and the group arm sends `onCommand`, as the source does. -/
def OnOffProcessCommand (env : Env) (aCommandId : Nat) (aBinding : EmberBindingTableEntry)
    (aDevice : Option DeviceProxy) (_aContext : Option BindingData) : Outcome :=
  reportResult LogText.invokeUnicastError <|
    if aCommandId = OnOff_Toggle_Id then
      match aDevice with
      | some d => unicastRequest env d aBinding Payload.Toggle
      | none => groupRequest env aBinding Payload.Toggle
    else if aCommandId = OnOff_On_Id then
      match aDevice with
      | some d => unicastRequest env d aBinding Payload.On
      | none => groupRequest env aBinding Payload.On
    else if aCommandId = OnOff_Off_Id then
      match aDevice with
      | some d => unicastRequest env d aBinding Payload.Off
      | none => groupRequest env aBinding Payload.On
    else
      some ([Event.log LogLevel.LOG_DBG LogText.commandIdNotSupported []], CHIP_NO_ERROR)

/-- `BindingHandler::LevelControlProcessCommand`.  The context pointer is read
only inside the `MoveToLevel` case; reading through a null context is fatal. -/
def LevelControlProcessCommand (env : Env) (aCommandId : Nat)
    (aBinding : EmberBindingTableEntry) (aDevice : Option DeviceProxy)
    (aContext : Option BindingData) : Outcome :=
  reportResult LogText.invokeGroupError <|
    if aCommandId = LevelControl_MoveToLevel_Id then
      match aContext with
      | none => none
      | some data =>
        let moveToLevelCommand := Payload.MoveToLevel data.Value
        match aDevice with
        | some d => unicastRequest env d aBinding moveToLevelCommand
        | none => groupRequest env aBinding moveToLevelCommand
    else
      some ([Event.log LogLevel.LOG_DBG LogText.commandIdNotSupported []], CHIP_NO_ERROR)

/-- `BindingHandler::LightSwitchChangedHandler`. -/
def LightSwitchChangedHandler (env : Env) (binding : EmberBindingTableEntry)
    (deviceProxy : Option DeviceProxy) (context : Option BindingData) : Outcome :=
  match context with
  | none => ⟨[Event.log LogLevel.LOG_ERR LogText.invalidContext []], Status.returned⟩
  | some data =>
    if binding.type = EMBER_MULTICAST_BINDING ∧ data.IsGroup = true then
      if data.ClusterId = OnOff_Id then
        OnOffProcessCommand env data.CommandId binding none context
      else if data.ClusterId = LevelControl_Id then
        LevelControlProcessCommand env data.CommandId binding none context
      else
        ⟨[Event.log LogLevel.ChipLogError LogText.invalidGroupCommandData []], Status.returned⟩
    else if binding.type = EMBER_UNICAST_BINDING ∧ data.IsGroup = false then
      if data.ClusterId = OnOff_Id then
        OnOffProcessCommand env data.CommandId binding deviceProxy context
      else if data.ClusterId = LevelControl_Id then
        LevelControlProcessCommand env data.CommandId binding deviceProxy context
      else
        ⟨[Event.log LogLevel.ChipLogError LogText.invalidUnicastCommandData []],
          Status.returned⟩
    else
      ⟨[], Status.returned⟩

/-- The loop of `BindingHandler::IsGroupBound` over the rows of the table. -/
def IsGroupBound : List EmberBindingTableEntry → Bool
  | [] => false
  | entry :: rest =>
    if EMBER_MULTICAST_BINDING = entry.type then true else IsGroupBound rest

/-- The cast `(int)x` of an unsigned value: reduction to 32 bits, read as a
signed number. -/
def castInt (x : Nat) : Int :=
  if x % 2 ^ 32 < 2 ^ 31 then ((x % 2 ^ 32 : Nat) : Int) else ((x % 2 ^ 32 : Nat) : Int) - 2 ^ 32

/-- The post-increment `i++` of the `uint8_t` counter: the new counter. -/
def incr8 (i : Nat) : Nat := (i + 1) % 2 ^ 8

/-- The `for` loop of `PrintBindingTable`, with the counter `i` and the lines
logged so far.  In the unicast case the tag line is logged first and the field
line then evaluates `entry.clusterId.Value()`, fatal on an empty optional. -/
def printLoop : List EmberBindingTableEntry → Nat → List Event → Outcome
  | [], _, logged => ⟨logged, Status.returned⟩
  | entry :: rest, i, logged =>
    match entry.type with
    | EMBER_UNICAST_BINDING =>
      let logged := logged ++ [Event.log LogLevel.LOG_INF LogText.unicastTag [(i : Int)]]
      match entry.clusterId with
      | none => ⟨logged, Status.aborted⟩
      | some clusterId =>
        printLoop rest (incr8 i)
          (logged ++ [Event.log LogLevel.LOG_INF LogText.unicastFields
            [castInt entry.fabricIndex, castInt entry.local_, castInt clusterId,
              castInt entry.remote, castInt entry.nodeId]])
    | EMBER_MULTICAST_BINDING =>
      printLoop rest (incr8 i)
        (logged ++ [Event.log LogLevel.LOG_INF LogText.groupTag [(i : Int)],
          Event.log LogLevel.LOG_INF LogText.groupFields
            [castInt entry.fabricIndex, castInt entry.local_, castInt entry.remote,
              castInt entry.groupId]])
    | EMBER_UNUSED_BINDING =>
      printLoop rest (incr8 i)
        (logged ++ [Event.log LogLevel.LOG_INF LogText.unusedTag [(i : Int)]])
    | EMBER_MANY_TO_ONE_BINDING =>
      printLoop rest (incr8 i)
        (logged ++ [Event.log LogLevel.LOG_INF LogText.manyToOneTag [(i : Int)]])
    | OUT_OF_RANGE => printLoop rest i logged

/-- `BindingHandler::PrintBindingTable`: the size header, then the loop with
`uint8_t i = 0`. -/
def PrintBindingTable (bindingTable : List EmberBindingTableEntry) : Outcome :=
  printLoop bindingTable 0
    [Event.log LogLevel.LOG_INF LogText.tableSize [(bindingTable.length : Int)]]

/-! ## Observations on a trace -/

/-- The event is a call of the unicast transport. -/
def Event.isUnicastSend : Event → Bool
  | Event.InvokeCommandRequest _ _ _ _ => true
  | _ => false

/-- The event is a call of the group transport. -/
def Event.isGroupSend : Event → Bool
  | Event.InvokeGroupCommandRequest _ _ _ _ _ => true
  | _ => false

/-- The event is a call of either transport. -/
def Event.isTransport (ev : Event) : Bool :=
  ev.isUnicastSend || ev.isGroupSend

/-- The command a transport call carries. -/
def Event.payload? : Event → Option Payload
  | Event.InvokeCommandRequest _ _ _ cmd => some cmd
  | Event.InvokeGroupCommandRequest _ _ _ _ cmd => some cmd
  | Event.log _ _ _ => none

/-- The event is the error line logged for an immediate transport error. -/
def Event.isTransportErrorLog : Event → Bool
  | Event.log LogLevel.LOG_ERR LogText.invokeUnicastError _ => true
  | Event.log LogLevel.LOG_ERR LogText.invokeGroupError _ => true
  | _ => false

/-! ## The specification side -/

/-- The Command Catalog in the words of the specification: the payload assigned
to a (cluster id, command id) pair, with the level of `MoveToLevel` taken from
the value of the context; `none` is `NotSupported`. -/
def catalog (clusterId commandId value : Nat) : Option Payload :=
  if clusterId = OnOff_Id ∧ commandId = OnOff_Toggle_Id then some Payload.Toggle
  else if clusterId = OnOff_Id ∧ commandId = OnOff_On_Id then some Payload.On
  else if clusterId = OnOff_Id ∧ commandId = OnOff_Off_Id then some Payload.Off
  else if clusterId = LevelControl_Id ∧ commandId = LevelControl_MoveToLevel_Id then
    some (Payload.MoveToLevel value)
  else none

/-- The description of the entry at position `k` in the words of the
specification: a unicast entry shows fabric, local endpoint, cluster, remote
endpoint and node id; a group entry shows fabric, local endpoint, remote
endpoint and group id; unused and many-to-one entries show only their tag.
There is none for a unicast entry without a cluster id to show, nor for a type
outside the four. -/
def describeEntry (k : Nat) (entry : EmberBindingTableEntry) : Option (List Event) :=
  match entry.type with
  | EMBER_UNICAST_BINDING =>
    match entry.clusterId with
    | none => none
    | some clusterId =>
      some [Event.log LogLevel.LOG_INF LogText.unicastTag [(k : Int)],
        Event.log LogLevel.LOG_INF LogText.unicastFields
          [(entry.fabricIndex : Int), (entry.local_ : Int), (clusterId : Int),
            (entry.remote : Int), (entry.nodeId : Int)]]
  | EMBER_MULTICAST_BINDING =>
    some [Event.log LogLevel.LOG_INF LogText.groupTag [(k : Int)],
      Event.log LogLevel.LOG_INF LogText.groupFields
        [(entry.fabricIndex : Int), (entry.local_ : Int), (entry.remote : Int),
          (entry.groupId : Int)]]
  | EMBER_UNUSED_BINDING => some [Event.log LogLevel.LOG_INF LogText.unusedTag [(k : Int)]]
  | EMBER_MANY_TO_ONE_BINDING =>
    some [Event.log LogLevel.LOG_INF LogText.manyToOneTag [(k : Int)]]
  | OUT_OF_RANGE => none

/-- The descriptions of the entries of a table in iteration order, the first
one at position `k`. -/
def dumpFrom : Nat → List EmberBindingTableEntry → Option (List Event)
  | _, [] => some []
  | k, entry :: rest =>
    match describeEntry k entry, dumpFrom (k + 1) rest with
    | some d, some ds => some (d ++ ds)
    | _, _ => none

/-- The `dumpTable()` of the specification: one description per entry, in table
iteration order, the k-th one carrying index k. -/
def dumpTable (bindingTable : List EmberBindingTableEntry) : Option (List Event) :=
  dumpFrom 0 bindingTable

/-- Every value the description of an entry shows lies in the range of `int`:
fabric, local endpoint, cluster, remote endpoint and node id for a unicast
entry; fabric, local endpoint, remote endpoint and group id for a group entry;
nothing for the other types.  Members an entry does not show are not bounded.
(By their types this can only fail for the node id and the cluster id of a
unicast entry.) -/
def inIntRange (entry : EmberBindingTableEntry) : Prop :=
  match entry.type with
  | EMBER_UNICAST_BINDING =>
    entry.fabricIndex < 2 ^ 31 ∧ entry.local_ < 2 ^ 31 ∧ entry.clusterId.getD 0 < 2 ^ 31 ∧
      entry.remote < 2 ^ 31 ∧ entry.nodeId < 2 ^ 31
  | EMBER_MULTICAST_BINDING =>
    entry.fabricIndex < 2 ^ 31 ∧ entry.local_ < 2 ^ 31 ∧ entry.remote < 2 ^ 31 ∧
      entry.groupId < 2 ^ 31
  | _ => True

instance (entry : EmberBindingTableEntry) : Decidable (inIntRange entry) := by
  unfold inIntRange
  split <;> infer_instance

/-! ## Concrete inputs -/

/-- A stack with one fabric (index 1, node id 100) whose transports accept
every request. -/
def sampleEnv : Env where
  fabricTable := [⟨1, 100⟩]
  exchangeMgr := 0
  unicastResult := fun _ _ _ _ => CHIP_NO_ERROR
  groupResult := fun _ _ _ _ _ => CHIP_NO_ERROR

/-- A group binding: fabric 1, local endpoint 2, remote endpoint 3, group 7. -/
def sampleGroupEntry : EmberBindingTableEntry :=
  ⟨EMBER_MULTICAST_BINDING, 1, 2, none, 3, 0, 7⟩

/-- A unicast binding: fabric 1, local endpoint 2, cluster 6, remote endpoint 3,
node 42. -/
def sampleUnicastEntry : EmberBindingTableEntry :=
  ⟨EMBER_UNICAST_BINDING, 1, 2, some 6, 3, 42, 0⟩

/-- A unicast binding without a cluster id. -/
def noClusterEntry : EmberBindingTableEntry :=
  ⟨EMBER_UNICAST_BINDING, 1, 2, none, 3, 42, 0⟩

/-- A unicast binding whose node id is `2 ^ 32 + 42`. -/
def wideNodeEntry : EmberBindingTableEntry :=
  ⟨EMBER_UNICAST_BINDING, 1, 2, some 6, 3, 2 ^ 32 + 42, 0⟩

def unusedEntry : EmberBindingTableEntry :=
  ⟨EMBER_UNUSED_BINDING, 0, 0, none, 0, 0, 0⟩

/-- A group binding (fabric 1, local endpoint 2, remote endpoint 3, group 7) whose
cluster and node members, which its description does not show, exceed the
range of `int`. -/
def wideHiddenGroupEntry : EmberBindingTableEntry :=
  ⟨EMBER_MULTICAST_BINDING, 1, 2, some 0xFFF1FC00, 3, 2 ^ 40, 7⟩

/-- A group binding on fabric 2, which the fabric table of `sampleEnv` does not
hold. -/
def orphanGroupEntry : EmberBindingTableEntry :=
  ⟨EMBER_MULTICAST_BINDING, 2, 2, none, 3, 0, 7⟩

/-- A device with exchange manager 5 and no secure session. -/
def noSessionDevice : DeviceProxy := ⟨5, none⟩

/-- A device with exchange manager 5 and an active secure session 9. -/
def sampleDevice : DeviceProxy := ⟨5, some 9⟩

/-- A context for endpoint 1 with the given cluster, command, value and scope. -/
def sampleData (clusterId commandId value : Nat) (isGroup : Bool) : BindingData :=
  ⟨1, commandId, clusterId, value, isGroup⟩

/-! ## Auxiliary facts -/

theorem castInt_of_lt {x : Nat} (h : x < 2 ^ 31) : castInt x = (x : Int) := by
  unfold castInt
  have hx : x % 2 ^ 32 = x := Nat.mod_eq_of_lt (by omega)
  rw [hx, if_pos h]

theorem reportResult_none (text : LogText) :
    reportResult text none = ⟨[], Status.aborted⟩ := rfl

/-- After a request that was issued, the outcome is the events of the request
followed by at most one error line, and the function returns. -/
theorem reportResult_some (text : LogText) (events : List Event) (ret : CHIP_ERROR) :
    reportResult text (some (events, ret)) =
      ⟨events ++ (if CHIP_NO_ERROR ≠ ret then
          [Event.log LogLevel.LOG_ERR text [(ret : Int)]] else []), Status.returned⟩ := by
  unfold reportResult
  by_cases h : CHIP_NO_ERROR = ret <;> simp [h]

theorem unicastRequest_session (env : Env) (em s : Nat) (b : EmberBindingTableEntry)
    (cmd : Payload) :
    unicastRequest env ⟨em, some s⟩ b cmd =
      some ([Event.InvokeCommandRequest em s b.remote cmd],
        env.unicastResult em s b.remote cmd) :=
  rfl

theorem unicastRequest_no_session (env : Env) (em : Nat) (b : EmberBindingTableEntry)
    (cmd : Payload) : unicastRequest env ⟨em, none⟩ b cmd = none := rfl

theorem groupRequest_found (env : Env) (b : EmberBindingTableEntry) (cmd : Payload)
    (fabric : FabricInfo) (h : FindFabricWithIndex env.fabricTable b.fabricIndex = some fabric) :
    groupRequest env b cmd =
      some ([Event.InvokeGroupCommandRequest env.exchangeMgr b.fabricIndex b.groupId
          fabric.nodeId cmd],
        env.groupResult env.exchangeMgr b.fabricIndex b.groupId fabric.nodeId cmd) := by
  unfold groupRequest
  rw [h]

theorem groupRequest_not_found (env : Env) (b : EmberBindingTableEntry) (cmd : Payload)
    (h : FindFabricWithIndex env.fabricTable b.fabricIndex = none) :
    groupRequest env b cmd = none := by
  unfold groupRequest
  rw [h]

/-- With a device handle, `OnOffProcessCommand` never calls the group transport. -/
theorem OnOff_device_no_group (env : Env) (cmd : Nat) (b : EmberBindingTableEntry)
    (d : DeviceProxy) (ctx : Option BindingData) :
    (OnOffProcessCommand env cmd b (some d) ctx).trace.any Event.isGroupSend = false := by
  obtain ⟨em, ss⟩ := d
  unfold OnOffProcessCommand
  cases ss <;> split_ifs <;>
    simp [unicastRequest_session, unicastRequest_no_session, reportResult_some,
      reportResult_none, Event.isGroupSend]

/-- With a device handle, `LevelControlProcessCommand` never calls the group
transport. -/
theorem LevelControl_device_no_group (env : Env) (cmd : Nat) (b : EmberBindingTableEntry)
    (d : DeviceProxy) (ctx : Option BindingData) :
    (LevelControlProcessCommand env cmd b (some d) ctx).trace.any Event.isGroupSend = false := by
  obtain ⟨em, ss⟩ := d
  unfold LevelControlProcessCommand
  cases ss <;> cases ctx <;> split_ifs <;>
    simp [unicastRequest_session, unicastRequest_no_session, reportResult_some,
      reportResult_none, Event.isGroupSend]

/-- Without a device handle, `OnOffProcessCommand` never calls the unicast
transport. -/
theorem OnOff_no_device_no_unicast (env : Env) (cmd : Nat) (b : EmberBindingTableEntry)
    (ctx : Option BindingData) :
    (OnOffProcessCommand env cmd b none ctx).trace.any Event.isUnicastSend = false := by
  unfold OnOffProcessCommand
  cases h : FindFabricWithIndex env.fabricTable b.fabricIndex <;> split_ifs <;>
    simp [groupRequest, h, reportResult_some,
      reportResult_none, Event.isUnicastSend]

/-- A call of `OnOffProcessCommand` never passes unnoticed: it aborts or leaves
at least one event. -/
theorem OnOff_call_visible (env : Env) (cmd : Nat) (b : EmberBindingTableEntry)
    (dev : Option DeviceProxy) (ctx : Option BindingData) :
    OnOffProcessCommand env cmd b dev ctx ≠ ⟨[], Status.returned⟩ := by
  unfold OnOffProcessCommand
  cases h : FindFabricWithIndex env.fabricTable b.fabricIndex <;>
    rcases dev with _ | ⟨em, _ | s⟩ <;> split_ifs <;>
    simp [groupRequest, h,
      unicastRequest_session, unicastRequest_no_session, reportResult_some,
      reportResult_none]

/-- A call of `LevelControlProcessCommand` never passes unnoticed either. -/
theorem LevelControl_call_visible (env : Env) (cmd : Nat) (b : EmberBindingTableEntry)
    (dev : Option DeviceProxy) (ctx : Option BindingData) :
    LevelControlProcessCommand env cmd b dev ctx ≠ ⟨[], Status.returned⟩ := by
  unfold LevelControlProcessCommand
  cases h : FindFabricWithIndex env.fabricTable b.fabricIndex <;>
    rcases dev with _ | ⟨em, _ | s⟩ <;> cases ctx <;> split_ifs <;>
    simp [groupRequest, h,
      unicastRequest_session, unicastRequest_no_session, reportResult_some,
      reportResult_none]

/-- Below 255 the 8-bit counter does not wrap. -/
theorem incr8_of_lt {k : Nat} (h : k + 1 < 256) : incr8 k = k + 1 := by
  unfold incr8
  exact Nat.mod_eq_of_lt (by norm_num; exact h)

/-- On a stretch of the table the counter does not wrap on, whose values fit
`int` and which the specification describes, the loop logs the descriptions of
the specification after what was logged before, and returns. -/
theorem printLoop_eq_dump (table : List EmberBindingTableEntry) :
    ∀ (i k : Nat) (logged lines : List Event),
      (table = [] ∨ (i = k ∧ k + table.length ≤ 256)) →
      (∀ e ∈ table, inIntRange e) →
      dumpFrom k table = some lines →
      printLoop table i logged = ⟨logged ++ lines, Status.returned⟩ := by
  induction table with
  | nil =>
    intro i k logged lines _ _ hd
    simp [dumpFrom] at hd
    subst hd
    simp [printLoop]
  | cons e rest ih =>
    intro i k logged lines hidx hr hd
    rcases hidx with h | ⟨rfl, hlen⟩
    · cases h
    have hre := hr e (List.mem_cons_self _ _)
    have hrr : ∀ x ∈ rest, inIntRange x := fun x hx => hr x (List.mem_cons_of_mem _ hx)
    have hnext : rest = [] ∨ (incr8 i = i + 1 ∧ i + 1 + rest.length ≤ 256) := by
      cases rest with
      | nil => exact Or.inl rfl
      | cons y ys =>
        right
        simp only [List.length_cons] at hlen ⊢
        exact ⟨incr8_of_lt (by omega), by omega⟩
    unfold dumpFrom at hd
    cases hdr : dumpFrom (i + 1) rest with
    | none =>
      rw [hdr] at hd
      cases hde : describeEntry i e <;> rw [hde] at hd <;> simp at hd
    | some ds =>
      cases hde : describeEntry i e with
      | none => rw [hde] at hd; simp at hd
      | some d =>
        rw [hde, hdr] at hd
        simp only [Option.some.injEq] at hd
        subst hd
        have step : ∀ acc, printLoop rest (incr8 i) acc = ⟨acc ++ ds, Status.returned⟩ :=
          fun acc => ih (incr8 i) (i + 1) acc ds hnext hrr hdr
        obtain ⟨ty, fab, loc, cl, rem, node, grp⟩ := e
        cases ty
        · simp only [describeEntry, Option.some.injEq] at hde
          subst hde
          simp [printLoop, step]
        · cases cl with
          | none => simp [describeEntry] at hde
          | some c =>
            simp only [describeEntry, Option.some.injEq] at hde
            subst hde
            obtain ⟨h1, h2, h6, h3, h5⟩ := hre
            simp only [Option.getD_some] at h1 h2 h3 h5 h6
            simp [printLoop, step]
            exact ⟨castInt_of_lt h1, castInt_of_lt h2, castInt_of_lt h6, castInt_of_lt h3,
              castInt_of_lt h5⟩
        · simp only [describeEntry, Option.some.injEq] at hde
          subst hde
          simp [printLoop, step]
        · simp only [describeEntry, Option.some.injEq] at hde
          subst hde
          obtain ⟨h1, h2, h3, h4⟩ := hre
          simp only at h1 h2 h3 h4
          simp [printLoop, step]
          exact ⟨castInt_of_lt h1, castInt_of_lt h2, castInt_of_lt h3, castInt_of_lt h4⟩
        · simp [describeEntry] at hde

/-- The specification describes every table whose entries are of the four
types and whose unicast entries have a cluster id. -/
theorem dumpFrom_isSome (table : List EmberBindingTableEntry) :
    ∀ k : Nat,
      (∀ e ∈ table, e.type ≠ OUT_OF_RANGE) →
      (∀ e ∈ table, e.type = EMBER_UNICAST_BINDING → e.clusterId ≠ none) →
      ∃ lines, dumpFrom k table = some lines := by
  induction table with
  | nil => intro k _ _; exact ⟨[], rfl⟩
  | cons e rest ih =>
    intro k ht hc
    obtain ⟨ds, hds⟩ := ih (k + 1) (fun x hx => ht x (List.mem_cons_of_mem _ hx))
      (fun x hx => hc x (List.mem_cons_of_mem _ hx))
    have hte := ht e (List.mem_cons_self _ _)
    have hce := hc e (List.mem_cons_self _ _)
    have hd : ∃ d, describeEntry k e = some d := by
      obtain ⟨ty, fab, loc, cl, rem, node, grp⟩ := e
      cases ty <;> cases cl <;> simp_all [describeEntry]
    obtain ⟨d, hd⟩ := hd
    exact ⟨d ++ ds, by unfold dumpFrom; rw [hd, hds]⟩

/-! ## Command payloads -/

/-- Every transport call of `OnOffProcessCommand` carries the payload the catalog
assigns to the command id, except that the group arm of the Off case carries
`On`. -/
theorem OnOff_payload (env : Env) (cmd : Nat) (b : EmberBindingTableEntry)
    (dev : Option DeviceProxy) (ctx : Option BindingData) (value : Nat) :
    ∀ ev ∈ (OnOffProcessCommand env cmd b dev ctx).trace, ev.isTransport = true →
      ev.payload? = catalog OnOff_Id cmd value ∨
      (cmd = OnOff_Off_Id ∧ dev = none ∧ ev.isGroupSend = true ∧
        ev.payload? = some Payload.On) := by
  intro ev hev hT
  unfold OnOffProcessCommand at hev
  have h12 : OnOff_On_Id ≠ OnOff_Toggle_Id := by decide
  have h13 : OnOff_Off_Id ≠ OnOff_Toggle_Id := by decide
  have h23 : OnOff_Off_Id ≠ OnOff_On_Id := by decide
  cases h : FindFabricWithIndex env.fabricTable b.fabricIndex <;>
    rcases dev with _ | ⟨em, _ | s⟩ <;> split_ifs at hev <;>
    simp [groupRequest, h, unicastRequest_session, unicastRequest_no_session,
      reportResult_some, reportResult_none] at hev <;>
    (try rcases hev with rfl | ⟨_, rfl⟩) <;>
    simp_all [Event.payload?, Event.isTransport, Event.isUnicastSend, Event.isGroupSend,
      catalog]

/-- Every transport call of `LevelControlProcessCommand` carries the payload the
catalog assigns to the command id and the value of the context. -/
theorem LevelControl_payload (env : Env) (cmd : Nat) (b : EmberBindingTableEntry)
    (dev : Option DeviceProxy) (data : BindingData) :
    ∀ ev ∈ (LevelControlProcessCommand env cmd b dev (some data)).trace,
      ev.isTransport = true → ev.payload? = catalog LevelControl_Id cmd data.Value := by
  intro ev hev hT
  unfold LevelControlProcessCommand at hev
  have hne : LevelControl_Id ≠ OnOff_Id := by decide
  cases h : FindFabricWithIndex env.fabricTable b.fabricIndex <;>
    rcases dev with _ | ⟨em, _ | s⟩ <;> split_ifs at hev <;>
    simp [groupRequest, h, unicastRequest_session, unicastRequest_no_session,
      reportResult_some, reportResult_none] at hev <;>
    (try rcases hev with rfl | ⟨_, rfl⟩) <;>
    simp_all [Event.payload?, Event.isTransport, Event.isUnicastSend, Event.isGroupSend,
      catalog]

/-- Every transport call of the handler carries the payload of the catalog,
except the group send for (OnOff, Off), which carries `On`. -/
theorem handler_payload (env : Env) (binding : EmberBindingTableEntry)
    (deviceProxy : Option DeviceProxy) (data : BindingData) :
    ∀ ev ∈ (LightSwitchChangedHandler env binding deviceProxy (some data)).trace,
      ev.isTransport = true →
      ev.payload? = catalog data.ClusterId data.CommandId data.Value ∨
      (data.ClusterId = OnOff_Id ∧ data.CommandId = OnOff_Off_Id ∧ ev.isGroupSend = true ∧
        ev.payload? = some Payload.On) := by
  intro ev hev hT
  unfold LightSwitchChangedHandler at hev
  by_cases hc1 : data.ClusterId = OnOff_Id
  · simp only [if_pos hc1] at hev
    have key : ∀ dev, ev ∈ (OnOffProcessCommand env data.CommandId binding dev
        (some data)).trace →
        ev.payload? = catalog data.ClusterId data.CommandId data.Value ∨
        (data.ClusterId = OnOff_Id ∧ data.CommandId = OnOff_Off_Id ∧
          ev.isGroupSend = true ∧ ev.payload? = some Payload.On) := by
      intro dev hmem
      rw [hc1]
      rcases OnOff_payload env data.CommandId binding dev (some data) data.Value ev hmem hT
        with h | ⟨h1, _, h3, h4⟩
      · exact Or.inl h
      · exact Or.inr ⟨rfl, h1, h3, h4⟩
    split_ifs at hev
    · exact key _ hev
    · exact key _ hev
    · simp at hev
  · by_cases hc2 : data.ClusterId = LevelControl_Id
    · simp only [if_neg hc1, if_pos hc2] at hev
      have key : ∀ dev, ev ∈ (LevelControlProcessCommand env data.CommandId binding dev
          (some data)).trace →
          ev.payload? = catalog data.ClusterId data.CommandId data.Value := by
        intro dev hmem
        rw [hc2]
        exact LevelControl_payload env data.CommandId binding dev data ev hmem hT
      split_ifs at hev
      · exact Or.inl (key _ hev)
      · exact Or.inl (key _ hev)
      · simp at hev
    · simp only [if_neg hc1, if_neg hc2] at hev
      split_ifs at hev <;> simp at hev <;> subst hev <;>
        simp [Event.isTransport, Event.isUnicastSend, Event.isGroupSend] at hT


/-- C1 (defect in the source): for cluster OnOff and command Off on a multicast
entry with a group-scoped context, the handler hands the group transport an
`On` payload, while the Command Catalog assigns `Off` to (OnOff, Off). -/
theorem C1_group_off_carries_on :
    LightSwitchChangedHandler sampleEnv sampleGroupEntry none
        (some (sampleData OnOff_Id OnOff_Off_Id 0 true))
      = ⟨[Event.InvokeGroupCommandRequest 0 1 7 100 Payload.On], Status.returned⟩ ∧
    catalog OnOff_Id OnOff_Off_Id 0 = some Payload.Off := by
  decide

/-! ## Target classification -/

/-- C2 (as stated, refuted): a unicast entry with a device-scoped context and no
device handle makes the handler call the group transport, although the entry
is not multicast and the context is not group-scoped. -/
theorem C2_unicast_entry_without_device_group_send :
    LightSwitchChangedHandler sampleEnv sampleUnicastEntry none
        (some (sampleData OnOff_Id OnOff_Toggle_Id 0 false))
      = ⟨[Event.InvokeGroupCommandRequest 0 1 0 100 Payload.Toggle], Status.returned⟩ ∧
    (LightSwitchChangedHandler sampleEnv sampleUnicastEntry none
        (some (sampleData OnOff_Id OnOff_Toggle_Id 0 false))).trace.any Event.isGroupSend = true ∧
    ¬ (sampleUnicastEntry.type = EMBER_MULTICAST_BINDING ∧
        (sampleData OnOff_Id OnOff_Toggle_Id 0 false).IsGroup = true) := by
  decide

/-- C2 (amended): for every binding entry, device handle and non-null context,
the handler calls the group transport only if the entry is multicast and the
context group-scoped, or the entry is unicast, the context device-scoped and no
device handle is supplied.  So a unicast entry with a device-scoped context
and a device handle never causes a group send. -/
theorem C2_group_send_only_if (env : Env) (binding : EmberBindingTableEntry)
    (deviceProxy : Option DeviceProxy) (data : BindingData)
    (h : (LightSwitchChangedHandler env binding deviceProxy (some data)).trace.any
        Event.isGroupSend = true) :
    (binding.type = EMBER_MULTICAST_BINDING ∧ data.IsGroup = true) ∨
    (binding.type = EMBER_UNICAST_BINDING ∧ data.IsGroup = false ∧ deviceProxy = none) := by
  unfold LightSwitchChangedHandler at h
  by_cases hg : binding.type = EMBER_MULTICAST_BINDING ∧ data.IsGroup = true
  · exact Or.inl hg
  · right
    simp only [hg, if_false] at h
    by_cases hu : binding.type = EMBER_UNICAST_BINDING ∧ data.IsGroup = false
    · refine ⟨hu.1, hu.2, ?_⟩
      cases deviceProxy with
      | none => rfl
      | some d =>
        exfalso
        simp only [hu, and_self, if_true] at h
        split_ifs at h
        · rw [OnOff_device_no_group] at h
          exact Bool.false_ne_true h
        · rw [LevelControl_device_no_group] at h
          exact Bool.false_ne_true h
        · simp [Event.isGroupSend] at h
    · simp [hu] at h

/-- C2 (amended), at a group entry with a group-scoped On command: the group send
that occurs falls under the first alternative. -/
theorem C2_group_send_only_if_witness :
    (LightSwitchChangedHandler sampleEnv sampleGroupEntry (some sampleDevice)
        (some (sampleData OnOff_Id OnOff_On_Id 0 true))).trace.any Event.isGroupSend = true ∧
    ((sampleGroupEntry.type = EMBER_MULTICAST_BINDING ∧
        (sampleData OnOff_Id OnOff_On_Id 0 true).IsGroup = true) ∨
      (sampleGroupEntry.type = EMBER_UNICAST_BINDING ∧
        (sampleData OnOff_Id OnOff_On_Id 0 true).IsGroup = false ∧
        some sampleDevice = none)) :=
  ⟨by decide,
    C2_group_send_only_if sampleEnv sampleGroupEntry (some sampleDevice)
      (sampleData OnOff_Id OnOff_On_Id 0 true) (by decide)⟩

/-- C3: when neither (multicast entry, group-scoped context) nor (unicast entry,
device-scoped context) holds, the handler returns with an empty trace, for
every cluster id, command id and device handle: no transport call, and no call
of `OnOffProcessCommand` or `LevelControlProcessCommand`, since any call of
those aborts or leaves an event. -/
theorem C3_mismatch_is_skipped (env : Env) (binding : EmberBindingTableEntry)
    (deviceProxy : Option DeviceProxy) (data : BindingData)
    (hGroup : ¬ (binding.type = EMBER_MULTICAST_BINDING ∧ data.IsGroup = true))
    (hUnicast : ¬ (binding.type = EMBER_UNICAST_BINDING ∧ data.IsGroup = false)) :
    LightSwitchChangedHandler env binding deviceProxy (some data) = ⟨[], Status.returned⟩ ∧
    (∀ cmd b dev ctx, OnOffProcessCommand env cmd b dev ctx ≠ ⟨[], Status.returned⟩) ∧
    (∀ cmd b dev ctx, LevelControlProcessCommand env cmd b dev ctx ≠ ⟨[], Status.returned⟩) := by
  refine ⟨?_, OnOff_call_visible env, LevelControl_call_visible env⟩
  unfold LightSwitchChangedHandler
  simp only [hGroup, hUnicast, if_false]

/-- C3 at a group entry with a device-scoped context. -/
theorem C3_mismatch_is_skipped_witness :
    LightSwitchChangedHandler sampleEnv sampleGroupEntry (some sampleDevice)
        (some (sampleData OnOff_Id OnOff_Toggle_Id 0 false)) = ⟨[], Status.returned⟩ ∧
    (∀ cmd b dev ctx, OnOffProcessCommand sampleEnv cmd b dev ctx ≠ ⟨[], Status.returned⟩) ∧
    (∀ cmd b dev ctx,
      LevelControlProcessCommand sampleEnv cmd b dev ctx ≠ ⟨[], Status.returned⟩) :=
  C3_mismatch_is_skipped sampleEnv sampleGroupEntry (some sampleDevice)
    (sampleData OnOff_Id OnOff_Toggle_Id 0 false) (by decide) (by decide)

/-! ## Dispatch -/

/-- C4: for a unicast entry, a device handle with an active secure session and a
device-scoped context with cluster OnOff and command Toggle, the handler
returns after exactly one call of the unicast transport, which carries a Toggle
payload addressed to the remote endpoint of the entry on the session of the
device, and it makes no call of the group transport. -/
theorem C4_unicast_toggle (env : Env) (binding : EmberBindingTableEntry)
    (device : DeviceProxy) (session : Nat) (data : BindingData)
    (hType : binding.type = EMBER_UNICAST_BINDING)
    (hSession : device.secureSession = some session)
    (hScope : data.IsGroup = false)
    (hCluster : data.ClusterId = OnOff_Id)
    (hCommand : data.CommandId = OnOff_Toggle_Id) :
    (LightSwitchChangedHandler env binding (some device) (some data)).trace.filter
        Event.isUnicastSend
      = [Event.InvokeCommandRequest device.exchangeManager session binding.remote
          Payload.Toggle] ∧
    (LightSwitchChangedHandler env binding (some device) (some data)).trace.filter
        Event.isGroupSend = [] ∧
    (LightSwitchChangedHandler env binding (some device) (some data)).status
      = Status.returned := by
  obtain ⟨em, ss⟩ := device
  simp only at hSession
  subst hSession
  have hOut : LightSwitchChangedHandler env binding (some ⟨em, some session⟩) (some data)
      = reportResult LogText.invokeUnicastError
          (some ([Event.InvokeCommandRequest em session binding.remote Payload.Toggle],
            env.unicastResult em session binding.remote Payload.Toggle)) := by
    simp [LightSwitchChangedHandler, OnOffProcessCommand, hType, hScope, hCluster, hCommand,
      unicastRequest_session]
  rw [hOut, reportResult_some]
  refine ⟨?_, ?_, rfl⟩ <;> split_ifs <;> simp [Event.isUnicastSend, Event.isGroupSend]

/-- C4 at the sample unicast entry and the sample device. -/
theorem C4_unicast_toggle_witness :
    (LightSwitchChangedHandler sampleEnv sampleUnicastEntry (some sampleDevice)
        (some (sampleData OnOff_Id OnOff_Toggle_Id 0 false))).trace.filter Event.isUnicastSend
      = [Event.InvokeCommandRequest 5 9 3 Payload.Toggle] ∧
    (LightSwitchChangedHandler sampleEnv sampleUnicastEntry (some sampleDevice)
        (some (sampleData OnOff_Id OnOff_Toggle_Id 0 false))).trace.filter Event.isGroupSend
      = [] ∧
    (LightSwitchChangedHandler sampleEnv sampleUnicastEntry (some sampleDevice)
        (some (sampleData OnOff_Id OnOff_Toggle_Id 0 false))).status = Status.returned :=
  C4_unicast_toggle sampleEnv sampleUnicastEntry sampleDevice 9
    (sampleData OnOff_Id OnOff_Toggle_Id 0 false) rfl rfl rfl rfl rfl

/-- C5: for a multicast entry whose fabric index is found in the fabric table
and a group-scoped context with cluster OnOff and command On, the handler
returns after exactly one call of the group transport, with the fabric index
and group id of the entry, the node id of the fabric found and an On payload,
and it makes no call of the unicast transport, whatever device handle is
passed in. -/
theorem C5_group_on (env : Env) (binding : EmberBindingTableEntry)
    (deviceProxy : Option DeviceProxy) (fabric : FabricInfo) (data : BindingData)
    (hType : binding.type = EMBER_MULTICAST_BINDING)
    (hFabric : FindFabricWithIndex env.fabricTable binding.fabricIndex = some fabric)
    (hScope : data.IsGroup = true)
    (hCluster : data.ClusterId = OnOff_Id)
    (hCommand : data.CommandId = OnOff_On_Id) :
    (LightSwitchChangedHandler env binding deviceProxy (some data)).trace.filter
        Event.isGroupSend
      = [Event.InvokeGroupCommandRequest env.exchangeMgr binding.fabricIndex binding.groupId
          fabric.nodeId Payload.On] ∧
    (LightSwitchChangedHandler env binding deviceProxy (some data)).trace.filter
        Event.isUnicastSend = [] ∧
    (LightSwitchChangedHandler env binding deviceProxy (some data)).status
      = Status.returned := by
  have hOut : LightSwitchChangedHandler env binding deviceProxy (some data)
      = reportResult LogText.invokeUnicastError
          (some ([Event.InvokeGroupCommandRequest env.exchangeMgr binding.fabricIndex
              binding.groupId fabric.nodeId Payload.On],
            env.groupResult env.exchangeMgr binding.fabricIndex binding.groupId fabric.nodeId
              Payload.On)) := by
    have hne : OnOff_On_Id ≠ OnOff_Toggle_Id := by decide
    simp [LightSwitchChangedHandler, OnOffProcessCommand, hType, hScope, hCluster, hCommand,
      groupRequest_found _ _ _ _ hFabric, hne]
  rw [hOut, reportResult_some]
  refine ⟨?_, ?_, rfl⟩ <;> split_ifs <;> simp [Event.isUnicastSend, Event.isGroupSend]

/-- C5 at the sample group entry and the sample fabric table. -/
theorem C5_group_on_witness :
    (LightSwitchChangedHandler sampleEnv sampleGroupEntry (some sampleDevice)
        (some (sampleData OnOff_Id OnOff_On_Id 0 true))).trace.filter Event.isGroupSend
      = [Event.InvokeGroupCommandRequest 0 1 7 100 Payload.On] ∧
    (LightSwitchChangedHandler sampleEnv sampleGroupEntry (some sampleDevice)
        (some (sampleData OnOff_Id OnOff_On_Id 0 true))).trace.filter Event.isUnicastSend
      = [] ∧
    (LightSwitchChangedHandler sampleEnv sampleGroupEntry (some sampleDevice)
        (some (sampleData OnOff_Id OnOff_On_Id 0 true))).status = Status.returned :=
  C5_group_on sampleEnv sampleGroupEntry (some sampleDevice) ⟨1, 100⟩
    (sampleData OnOff_Id OnOff_On_Id 0 true) rfl rfl rfl rfl rfl

/-- C6 (as stated, refuted): with a device handle that has no secure session,
and without a device handle when the fabric of the entry is not in the fabric
table, `LevelControlProcessCommand` with command MoveToLevel stops in the fatal
check before any transport call: no MoveToLevel payload is sent on that path. -/
theorem C6_no_send_without_session_or_fabric :
    LevelControlProcessCommand sampleEnv LevelControl_MoveToLevel_Id sampleUnicastEntry
        (some noSessionDevice)
        (some (sampleData LevelControl_Id LevelControl_MoveToLevel_Id 77 false))
      = ⟨[], Status.aborted⟩ ∧
    noSessionDevice.secureSession = none ∧
    LevelControlProcessCommand sampleEnv LevelControl_MoveToLevel_Id orphanGroupEntry none
        (some (sampleData LevelControl_Id LevelControl_MoveToLevel_Id 77 true))
      = ⟨[], Status.aborted⟩ ∧
    FindFabricWithIndex sampleEnv.fabricTable orphanGroupEntry.fabricIndex = none := by
  decide

/-- C6 (amended): for every context value, `LevelControlProcessCommand` with
command MoveToLevel puts the value into the level of the payload unchanged.
Every transport call it makes carries `MoveToLevel` with level equal to the
value.  With a device handle that has an active secure session it makes
exactly one transport call, the unicast one; without a device handle and with
the fabric of the entry found it makes exactly one, the group one.  Two
contexts with the same value give the same outcome, whatever their other
fields. -/
theorem C6_move_to_level_keeps_value (env : Env) (aBinding : EmberBindingTableEntry)
    (aDevice : Option DeviceProxy) (data : BindingData) :
    (∀ ev ∈ (LevelControlProcessCommand env LevelControl_MoveToLevel_Id aBinding aDevice
          (some data)).trace,
        ev.isTransport = true → ev.payload? = some (Payload.MoveToLevel data.Value)) ∧
    (∀ d session, aDevice = some d → d.secureSession = some session →
        (LevelControlProcessCommand env LevelControl_MoveToLevel_Id aBinding aDevice
          (some data)).trace.filter Event.isTransport
          = [Event.InvokeCommandRequest d.exchangeManager session aBinding.remote
              (Payload.MoveToLevel data.Value)]) ∧
    (∀ fabric, aDevice = none →
        FindFabricWithIndex env.fabricTable aBinding.fabricIndex = some fabric →
        (LevelControlProcessCommand env LevelControl_MoveToLevel_Id aBinding aDevice
          (some data)).trace.filter Event.isTransport
          = [Event.InvokeGroupCommandRequest env.exchangeMgr aBinding.fabricIndex
              aBinding.groupId fabric.nodeId (Payload.MoveToLevel data.Value)]) ∧
    (∀ other : BindingData, other.Value = data.Value →
        LevelControlProcessCommand env LevelControl_MoveToLevel_Id aBinding aDevice (some other)
          = LevelControlProcessCommand env LevelControl_MoveToLevel_Id aBinding aDevice
              (some data)) := by
  refine ⟨?_, ?_, ?_, ?_⟩
  · intro ev hev hT
    unfold LevelControlProcessCommand at hev
    cases h : FindFabricWithIndex env.fabricTable aBinding.fabricIndex <;>
      rcases aDevice with _ | ⟨em, _ | s⟩ <;>
      simp [groupRequest, h, unicastRequest_session, unicastRequest_no_session,
        reportResult_some, reportResult_none] at hev <;>
      rcases hev with rfl | ⟨_, rfl⟩ <;>
      simp_all [Event.payload?, Event.isTransport, Event.isUnicastSend, Event.isGroupSend]
  · rintro ⟨em, ss⟩ session rfl hs
    simp only at hs
    subst hs
    unfold LevelControlProcessCommand
    simp only [if_true, unicastRequest_session, reportResult_some]
    split_ifs <;> simp [Event.isTransport, Event.isUnicastSend, Event.isGroupSend]
  · rintro fabric rfl hf
    unfold LevelControlProcessCommand
    simp only [if_true, groupRequest_found _ _ _ _ hf, reportResult_some]
    split_ifs <;> simp [Event.isTransport, Event.isUnicastSend, Event.isGroupSend]
  · intro other ho
    unfold LevelControlProcessCommand
    simp only [if_true, ho]

/-- C6 (amended) on the unicast path, at the sample device and value 77. -/
theorem C6_move_to_level_keeps_value_witness :
    (LevelControlProcessCommand sampleEnv LevelControl_MoveToLevel_Id sampleUnicastEntry
        (some sampleDevice)
        (some (sampleData LevelControl_Id LevelControl_MoveToLevel_Id 77 false))).trace.filter
        Event.isTransport
      = [Event.InvokeCommandRequest 5 9 3 (Payload.MoveToLevel 77)] :=
  (C6_move_to_level_keeps_value sampleEnv sampleUnicastEntry (some sampleDevice)
    (sampleData LevelControl_Id LevelControl_MoveToLevel_Id 77 false)).2.1
    sampleDevice 9 rfl rfl

/-! ## Unsupported commands and invalid context -/

/-- C7: for a (cluster id, command id) pair other than (OnOff, Toggle),
(OnOff, On), (OnOff, Off) and (LevelControl, MoveToLevel), and for every binding
entry, device handle and non-null context, the handler returns, calls neither
transport and logs no immediate-transport-error line. -/
theorem C7_unknown_pair_sends_nothing (env : Env) (binding : EmberBindingTableEntry)
    (deviceProxy : Option DeviceProxy) (data : BindingData)
    (hToggle : ¬ (data.ClusterId = OnOff_Id ∧ data.CommandId = OnOff_Toggle_Id))
    (hOn : ¬ (data.ClusterId = OnOff_Id ∧ data.CommandId = OnOff_On_Id))
    (hOff : ¬ (data.ClusterId = OnOff_Id ∧ data.CommandId = OnOff_Off_Id))
    (hLevel : ¬ (data.ClusterId = LevelControl_Id ∧
        data.CommandId = LevelControl_MoveToLevel_Id)) :
    (LightSwitchChangedHandler env binding deviceProxy (some data)).status = Status.returned ∧
    (LightSwitchChangedHandler env binding deviceProxy (some data)).trace.any
        Event.isTransport = false ∧
    (LightSwitchChangedHandler env binding deviceProxy (some data)).trace.any
        Event.isTransportErrorLog = false := by
  have hOnOff : ∀ dev, data.ClusterId = OnOff_Id →
      OnOffProcessCommand env data.CommandId binding dev (some data)
        = ⟨[Event.log LogLevel.LOG_DBG LogText.commandIdNotSupported []], Status.returned⟩ := by
    intro dev hc
    have h1 : data.CommandId ≠ OnOff_Toggle_Id := fun h => hToggle ⟨hc, h⟩
    have h2 : data.CommandId ≠ OnOff_On_Id := fun h => hOn ⟨hc, h⟩
    have h3 : data.CommandId ≠ OnOff_Off_Id := fun h => hOff ⟨hc, h⟩
    unfold OnOffProcessCommand
    rw [if_neg h1, if_neg h2, if_neg h3, reportResult_some]
    simp
  have hLev : ∀ dev, data.ClusterId = LevelControl_Id →
      LevelControlProcessCommand env data.CommandId binding dev (some data)
        = ⟨[Event.log LogLevel.LOG_DBG LogText.commandIdNotSupported []], Status.returned⟩ := by
    intro dev hc
    have h1 : data.CommandId ≠ LevelControl_MoveToLevel_Id := fun h => hLevel ⟨hc, h⟩
    unfold LevelControlProcessCommand
    rw [if_neg h1, reportResult_some]
    simp
  unfold LightSwitchChangedHandler
  by_cases hc1 : data.ClusterId = OnOff_Id
  · simp only [if_pos hc1]
    rw [hOnOff none hc1, hOnOff deviceProxy hc1]
    refine ⟨?_, ?_, ?_⟩ <;> split_ifs <;>
      simp [Event.isTransport, Event.isUnicastSend, Event.isGroupSend,
        Event.isTransportErrorLog]
  · by_cases hc2 : data.ClusterId = LevelControl_Id
    · simp only [if_neg hc1, if_pos hc2]
      rw [hLev none hc2, hLev deviceProxy hc2]
      refine ⟨?_, ?_, ?_⟩ <;> split_ifs <;>
        simp [Event.isTransport, Event.isUnicastSend, Event.isGroupSend,
          Event.isTransportErrorLog]
    · simp only [if_neg hc1, if_neg hc2]
      refine ⟨?_, ?_, ?_⟩ <;> split_ifs <;>
        simp [Event.isTransport, Event.isUnicastSend, Event.isGroupSend,
          Event.isTransportErrorLog]

/-- C7 at cluster OnOff with the unknown command id 7. -/
theorem C7_unknown_pair_sends_nothing_witness :
    (LightSwitchChangedHandler sampleEnv sampleUnicastEntry (some sampleDevice)
        (some (sampleData OnOff_Id 7 0 false))).status = Status.returned ∧
    (LightSwitchChangedHandler sampleEnv sampleUnicastEntry (some sampleDevice)
        (some (sampleData OnOff_Id 7 0 false))).trace.any Event.isTransport = false ∧
    (LightSwitchChangedHandler sampleEnv sampleUnicastEntry (some sampleDevice)
        (some (sampleData OnOff_Id 7 0 false))).trace.any Event.isTransportErrorLog = false :=
  C7_unknown_pair_sends_nothing sampleEnv sampleUnicastEntry (some sampleDevice)
    (sampleData OnOff_Id 7 0 false) (by decide) (by decide) (by decide) (by decide)

/-- C8: for every binding entry and device handle, the handler called with a
null context logs the one error line and returns; the outcome is the same
whatever the entry and the handle are, so neither is read or classified, and
no transport is called. -/
theorem C8_null_context_logs_and_returns (env : Env) (binding : EmberBindingTableEntry)
    (deviceProxy : Option DeviceProxy) :
    LightSwitchChangedHandler env binding deviceProxy none
      = ⟨[Event.log LogLevel.LOG_ERR LogText.invalidContext []], Status.returned⟩ ∧
    (LightSwitchChangedHandler env binding deviceProxy none).trace.any Event.isTransport
      = false :=
  ⟨rfl, rfl⟩

/-! ## Binding table inspection -/

/-- C9: `IsGroupBound` is true exactly when some entry of the table has type
multicast, and it is false on the empty table. -/
theorem C9_IsGroupBound_iff_multicast_entry (bindingTable : List EmberBindingTableEntry) :
    (IsGroupBound bindingTable = true ↔
      ∃ entry ∈ bindingTable, entry.type = EMBER_MULTICAST_BINDING) ∧
    IsGroupBound [] = false := by
  refine ⟨?_, rfl⟩
  induction bindingTable with
  | nil => simp [IsGroupBound]
  | cons entry rest ih =>
    unfold IsGroupBound
    by_cases h : EMBER_MULTICAST_BINDING = entry.type
    · simp [h.symm]
    · have h2 : entry.type ≠ EMBER_MULTICAST_BINDING := fun e => h e.symm
      simp [h, h2, ih]

set_option maxRecDepth 1000000

/-- C10 (as stated, refuted) on three tables.  A unicast entry without a cluster
id stops the function after its tag line, so the entry after it gets no
description.  A unicast entry with node id 4294967338 is shown with node id 42.
In a table of 257 unused entries the last description, at position 256,
carries index 0. -/
theorem C10_print_differs_from_dump :
    PrintBindingTable [noClusterEntry, unusedEntry]
      = ⟨[Event.log LogLevel.LOG_INF LogText.tableSize [2],
          Event.log LogLevel.LOG_INF LogText.unicastTag [0]], Status.aborted⟩ ∧
    PrintBindingTable [wideNodeEntry]
      = ⟨[Event.log LogLevel.LOG_INF LogText.tableSize [1],
          Event.log LogLevel.LOG_INF LogText.unicastTag [0],
          Event.log LogLevel.LOG_INF LogText.unicastFields [1, 2, 6, 3, 42]],
        Status.returned⟩ ∧
    wideNodeEntry.nodeId = 4294967338 ∧
    (PrintBindingTable (List.replicate 257 unusedEntry)).trace.length = 258 ∧
    (PrintBindingTable (List.replicate 257 unusedEntry)).trace.getLast?
      = some (Event.log LogLevel.LOG_INF LogText.unusedTag [0]) := by
  decide

/-- C10 (amended): for every binding table of at most 256 entries, each of type
unicast, multicast, unused or many-to-one, in which every unicast entry has a
cluster id and every value an entry shows lies in the range of `int`,
`PrintBindingTable` returns after logging the size header followed by exactly
the descriptions of the specification: one per entry in table iteration order,
the k-th one carrying index k and the field values its type calls for. -/
theorem C10_print_matches_dump (bindingTable : List EmberBindingTableEntry)
    (hTypes : ∀ entry ∈ bindingTable, entry.type ≠ OUT_OF_RANGE)
    (hCluster : ∀ entry ∈ bindingTable,
      entry.type = EMBER_UNICAST_BINDING → entry.clusterId ≠ none)
    (hRange : ∀ entry ∈ bindingTable, inIntRange entry)
    (hSize : bindingTable.length ≤ 256) :
    ∃ lines, dumpTable bindingTable = some lines ∧
      PrintBindingTable bindingTable
        = ⟨Event.log LogLevel.LOG_INF LogText.tableSize [(bindingTable.length : Int)] :: lines,
            Status.returned⟩ := by
  obtain ⟨lines, hl⟩ := dumpFrom_isSome bindingTable 0 hTypes hCluster
  refine ⟨lines, hl, ?_⟩
  unfold PrintBindingTable
  rw [printLoop_eq_dump bindingTable 0 0 _ lines (Or.inr ⟨rfl, by omega⟩) hRange hl]
  rfl

/-- C10 (amended) at the table of one unicast entry (fabric 1, local 2, cluster 6,
remote 3, node 42) and one group entry (fabric 1, local 2, remote 3, group 7)
whose unshown cluster and node members exceed the range of `int`. -/
theorem C10_print_matches_dump_witness :
    ∃ lines, dumpTable [sampleUnicastEntry, wideHiddenGroupEntry] = some lines ∧
      PrintBindingTable [sampleUnicastEntry, wideHiddenGroupEntry]
        = ⟨Event.log LogLevel.LOG_INF LogText.tableSize
              [(([sampleUnicastEntry, wideHiddenGroupEntry] :
                List EmberBindingTableEntry).length : Int)] :: lines,
            Status.returned⟩ :=
  C10_print_matches_dump [sampleUnicastEntry, wideHiddenGroupEntry] (by decide) (by decide)
    (by decide) (by decide)

end BindingHandler
